import Mathlib

/-!
Shallow embedding of the core of the `chittychain-evidence-game` repository,
together with theorems settling the frozen claims C1-C10.

Two source files are embedded:
  * `src/core/workflow_automation_engine.js`   (step execution engine)
  * `src/core/compliance_revenue_engine.js`    (calendar generator and monitor)

Modelling conventions:
  * JavaScript numbers used as integer counters, millisecond timestamps and
    day counts are modelled as `Int`/`Nat`; fee amounts and the progress
    percentage (which JS computes with float division) are modelled as `Rat`.
    The quantities occurring here are small enough that JS float arithmetic
    is exact except for the progress division, whose monotonicity and
    `= 100` comparisons are insensitive to the float/rational difference.
  * External collaborators (document engine, database inserts, the LLM calls,
    memory/chittyChain logging) are side effects with no influence on the
    persisted workflow/calendar state; where a step's outcome comes from a
    collaborator it is passed in as an explicit oracle argument.
  * Statuses are the literal strings the source compares against.
  * The persisted state of a workflow is the `workflow_data` JSON column plus
    the `status` column of `llc_formation.workflows`; `executeWorkflowStep`
    rewrites `workflow_data` and `completeWorkflow` rewrites the column.
-/

/-! ### JS dates, as used by the two engines

The generator builds dates with `new Date(year, month, day)` (month 0-based,
with month overflow normalized into the year, e.g. `new Date(y, 12, 20)` is
Jan 20 of `y+1`); the monitor only ever subtracts two dates, getting
milliseconds.  We model calendar dates as (year, month, day) triples with the
month normalization of the JS constructor (day overflow does not occur for
the day values 1/15/20/31 the generator uses), and monitor-side instants as
integer milliseconds. -/

structure GDate where
  year : Int
  month : Int
  day : Int
deriving DecidableEq

/-- `new Date(y, m, d)` month normalization (floor semantics, as in JS). -/
def mkDate (y m d : Int) : GDate :=
  ⟨y + Int.fdiv m 12, Int.fmod m 12, d⟩

/-! ### Workflow automation engine (`workflow_automation_engine.js`)

`WStep` models one element of `workflow.steps` as created by
`createFormationWorkflow` and mutated by `executeWorkflowStep`.  Fields not
read or written by `executeWorkflowStep` (`automation`, AI metadata) are
omitted. -/

structure WStep where
  id : String
  name : String
  duration : Int
  critical : Bool
  status : String
  startDate : Option Int
  completedDate : Option Int
  result : Option Bool
  dependencies : List String
deriving DecidableEq

/-- The persisted workflow instance.  `statusField` is the `status` field
inside the `workflow_data` JSON (written once at creation); `dbStatus` is the
`status` column of `llc_formation.workflows`, which `completeWorkflow`
updates.  Fields that `executeWorkflowStep` neither reads nor writes
(`baseWorkflow`, cost estimates, `smartOptimizations`, ...) are omitted. -/
structure Workflow where
  id : String
  businessName : String
  state : String
  statusField : String
  dbStatus : String
  steps : List WStep
  progress : Rat
  nextAction : Option WStep
deriving DecidableEq

/-- `getStepDependencies` (workflow_automation_engine.js:569-583). -/
def getStepDependencies (stepId : String) : List String :=
  if stepId = "name_check" then []
  else if stepId = "name_reservation" then ["name_check"]
  else if stepId = "registered_agent" then ["name_check"]
  else if stepId = "articles_prep" then ["name_check", "registered_agent"]
  else if stepId = "articles_filing" then ["articles_prep"]
  else if stepId = "ein_application" then ["articles_filing"]
  else if stepId = "operating_agreement" then ["ein_application"]
  else if stepId = "business_licenses" then ["articles_filing"]
  else if stepId = "compliance_setup" then ["articles_filing"]
  else []

/-- `workflow.steps.find(s => s.id === stepId)`. -/
def findStep (steps : List WStep) (sid : String) : Option WStep :=
  steps.find? (fun s => s.id == sid)

/-- The `missing` list built by `checkStepDependencies`
(workflow_automation_engine.js:597-612): a dependency id is missing when no
step carries it or the carrying step is not `completed`. -/
def missingDeps (steps : List WStep) (stepId : String) : List String :=
  (getStepDependencies stepId).filter (fun depId =>
    match findStep steps depId with
    | none => true
    | some dep => !(dep.status == "completed"))

/-- The nine step ids the `switch` of `executeWorkflowStep` dispatches on
(workflow_automation_engine.js:241-271); any other id hits the `default:`
branch, which throws. -/
def knownStepIds : List String :=
  ["name_check", "name_reservation", "registered_agent", "articles_prep",
   "articles_filing", "ein_application", "operating_agreement",
   "business_licenses", "compliance_setup"]

/-- In-place mutation of the step object found by `find`: replace the first
step whose id matches. -/
def updateFirst : List WStep → String → WStep → List WStep
  | [], _, _ => []
  | s :: rest, sid, s0 =>
    if s.id == sid then s0 :: rest else s :: updateFirst rest sid s0

/-- `workflow.steps.filter(s => s.status === 'completed').length`. -/
def countCompleted (steps : List WStep) : Nat :=
  (steps.filter (fun s => s.status == "completed")).length

/-- `getNextPendingStep` (workflow_automation_engine.js:614-616). -/
def nextPendingStep (steps : List WStep) : Option WStep :=
  steps.find? (fun s => s.status == "pending")

/-- The value `executeWorkflowStep` returns to its caller (collapsed to the
fields the claims are about). -/
inductive ExecResponse
  | stepNotFound
  | alreadyCompleted (result : Option Bool)
  | depsNotCompleted (missing : List String)
  | unknownStepType
  | executed (stepSuccess : Bool) (progress : Rat) (workflowCompleted : Bool)
deriving DecidableEq

/-- Result of one `executeWorkflowStep` call: the persisted workflow after
the call, the response, and whether the `switch` dispatched one of the
side-effecting `execute*` methods (`effectRan`). -/
structure ExecOut where
  wf : Workflow
  resp : ExecResponse
  effectRan : Bool
deriving DecidableEq

/-- `executeWorkflowStep(workflowId, stepId, stepData)`
(workflow_automation_engine.js:204-326), for a workflow instance that exists.

Control flow of the source, in order:
 1. find the step; missing → throw caught → error, nothing persisted;
 2. `if (step.status === 'completed')` → early success return, no dispatch;
 3. dependency check via `checkStepDependencies` → early error return;
 4. mark `in_progress` on the in-memory object, dispatch on `stepId`
    (unknown id throws: the in-memory mutation is discarded, nothing is
    persisted), record the delegated outcome (`outcome` oracle, covering the
    external collaborators), set `completed`/`failed`, recompute
    `progress`/`nextAction`, persist `workflow_data`, and when
    `progress === 100` run `completeWorkflow`, which sets the `status`
    column to `completed`.
`now` stands for the `new Date()` timestamps taken during the call. -/
def executeWorkflowStep (wf : Workflow) (stepId : String) (outcome : Bool)
    (now : Int) : ExecOut :=
  match findStep wf.steps stepId with
  | none => ⟨wf, .stepNotFound, false⟩
  | some st =>
    if st.status == "completed" then ⟨wf, .alreadyCompleted st.result, false⟩
    else
      let missing := missingDeps wf.steps stepId
      if missing.isEmpty then
        if knownStepIds.contains stepId then
          let st1 : WStep :=
            { st with
              status := if outcome then "completed" else "failed",
              startDate := some now,
              completedDate := some now,
              result := some outcome }
          let steps1 := updateFirst wf.steps stepId st1
          let prog : Rat := ((countCompleted steps1 : Rat) / (steps1.length : Rat)) * 100
          let completedFlag : Bool := decide (prog = 100)
          let wf1 : Workflow :=
            { wf with
              steps := steps1,
              progress := prog,
              nextAction := nextPendingStep steps1,
              dbStatus := if completedFlag then "completed" else wf.dbStatus }
          ⟨wf1, .executed outcome prog completedFlag, true⟩
        else ⟨wf, .unknownStepType, false⟩
      else ⟨wf, .depsNotCompleted missing, false⟩

/-- A fresh step as `createFormationWorkflow` builds it (status `pending`,
dates and result null, dependencies from the table). -/
def mkPendingStep (sid nm : String) (dur : Int) (crit : Bool) : WStep :=
  ⟨sid, nm, dur, crit, "pending", none, none, none, getStepDependencies sid⟩

/-- The FL step list of `stateWorkflows`
(workflow_automation_engine.js:32-42), decorated as at workflow creation. -/
def flSteps : List WStep :=
  [mkPendingStep "name_check" "Business Name Availability Check" 1 true,
   mkPendingStep "name_reservation" "Name Reservation (Optional)" 1 false,
   mkPendingStep "registered_agent" "Secure Registered Agent" 1 true,
   mkPendingStep "articles_prep" "Prepare Articles of Organization" 1 true,
   mkPendingStep "articles_filing" "File Articles with Florida DOS" 5 true,
   mkPendingStep "ein_application" "Apply for Federal EIN" 1 true,
   mkPendingStep "operating_agreement" "Create Operating Agreement" 2 false,
   mkPendingStep "business_licenses" "Identify Business Licenses" 3 false,
   mkPendingStep "compliance_setup" "Setup Compliance Calendar" 1 true]

/-- A freshly created FL workflow instance (AI optimization on its
fallback path, which returns the base workflow unchanged). -/
def freshFLWorkflow : Workflow :=
  { id := "WF-FL-0", businessName := "Test LLC", state := "FL",
    statusField := "created", dbStatus := "created",
    steps := flSteps, progress := 0, nextAction := flSteps.head? }

/-! ### Compliance calendar generator (`compliance_revenue_engine.js`)

One generated compliance event.  The optional `taxType`/`period` fields model
the `details` object that tax events carry (other event kinds carry different
`details`, irrelevant to the claims, or none).  Note the source gives events
no `status` field at all. -/

structure GEvent where
  id : String
  type : String
  title : String
  dueDate : GDate
  cost : Rat
  penalty : Rat
  critical : Bool
  automatable : Bool
  automationTrigger : Int
  revenueOpportunity : Rat
  taxType : Option String
  period : Option String
deriving DecidableEq

structure TaxObligation where
  type : String
  frequency : String
  rate : String
deriving DecidableEq

/-- The slice of `this.complianceRequirements[state]` that
`createComplianceCalendar` and the event creators read
(compliance_revenue_engine.js:29-116). -/
structure StateReqs where
  name : String
  annualReportRequired : Bool
  annualReportFee : Rat
  annualReportPenalty : Rat
  businessLicenseRequired : Bool
  businessLicenseFee : Rat
  taxObligations : List TaxObligation
  registeredAgentCost : Rat
deriving DecidableEq

def flReqs : StateReqs :=
  { name := "Florida", annualReportRequired := true,
    annualReportFee := 138.75, annualReportPenalty := 400,
    businessLicenseRequired := true, businessLicenseFee := 50,
    taxObligations :=
      [⟨"Sales Tax", "Monthly", "6%"⟩, ⟨"Reemployment Tax", "Quarterly", "Variable"⟩],
    registeredAgentCost := 199 }

def wyReqs : StateReqs :=
  { name := "Wyoming", annualReportRequired := true,
    annualReportFee := 60, annualReportPenalty := 25,
    businessLicenseRequired := false, businessLicenseFee := 25,
    taxObligations := [⟨"Sales Tax", "Monthly/Quarterly", "4%"⟩],
    registeredAgentCost := 149 }

def ilReqs : StateReqs :=
  { name := "Illinois", annualReportRequired := true,
    annualReportFee := 75, annualReportPenalty := 100,
    businessLicenseRequired := true, businessLicenseFee := 75,
    taxObligations :=
      [⟨"Income Tax", "Annual", "9.5%"⟩, ⟨"Sales Tax", "Monthly", "6.25%"⟩],
    registeredAgentCost := 199 }

/-- `this.complianceRequirements[state]`; `undefined` (here `none`) makes
`createComplianceCalendar` throw. -/
def complianceRequirements (state : String) : Option StateReqs :=
  if state = "FL" then some flReqs
  else if state = "WY" then some wyReqs
  else if state = "IL" then some ilReqs
  else none

/-- `this.revenueServices.ongoing.annualReportFiling.price` etc.
(compliance_revenue_engine.js:125-131). -/
def annualReportFilingPrice : Rat := 149

def registeredAgentPrice : Rat := 199

def taxPreparationPrice : Rat := 299

/-- `createAnnualReportEvent(state, year, formationDate)`
(compliance_revenue_engine.js:523-549).  FL pins May 1st (month index 4);
other states use the 15th of the formation month. -/
def createAnnualReportEvent (state : String) (reqs : StateReqs) (year : Nat)
    (formationDate : GDate) : GEvent :=
  { id := "AR-" ++ state ++ "-" ++ Nat.repr year,
    type := "annual_report",
    title := state ++ " Annual Report Filing",
    dueDate := if state = "FL" then mkDate year 4 1 else mkDate year formationDate.month 15,
    cost := reqs.annualReportFee, penalty := reqs.annualReportPenalty,
    critical := true, automatable := true, automationTrigger := 45,
    revenueOpportunity := annualReportFilingPrice,
    taxType := none, period := none }

/-- `createTaxEvents(taxObligation, year)`
(compliance_revenue_engine.js:551-607).  The `switch` on `frequency`
produces 12 monthly, 4 quarterly, or 1 annual event; any other frequency
string (e.g. Wyoming's `Monthly/Quarterly`) produces none. -/
def createTaxEvents (t : TaxObligation) (year : Nat) : List GEvent :=
  if t.frequency = "Monthly" then
    (List.range 12).map (fun month =>
      { id := "TAX-" ++ t.type ++ "-" ++ Nat.repr year ++ "-" ++ Nat.repr (month + 1),
        type := "tax_filing", title := t.type ++ " Filing",
        dueDate := mkDate year ((month : Int) + 1) 20,
        cost := 0, penalty := 50, critical := true, automatable := true,
        automationTrigger := 30, revenueOpportunity := taxPreparationPrice / 12,
        taxType := some t.type, period := some "monthly" })
  else if t.frequency = "Quarterly" then
    (List.range 4).map (fun quarter =>
      { id := "TAX-" ++ t.type ++ "-" ++ Nat.repr year ++ "-Q" ++ Nat.repr (quarter + 1),
        type := "tax_filing", title := t.type ++ " Quarterly Filing",
        dueDate := mkDate year (((quarter : Int) + 1) * 3) 15,
        cost := 0, penalty := 100, critical := true, automatable := true,
        automationTrigger := 45, revenueOpportunity := taxPreparationPrice / 4,
        taxType := some t.type, period := some "quarterly" })
  else if t.frequency = "Annual" then
    [{ id := "TAX-" ++ t.type ++ "-" ++ Nat.repr year,
       type := "tax_filing", title := t.type ++ " Annual Return",
       dueDate := mkDate ((year : Int) + 1) 2 15,
       cost := 0, penalty := 200, critical := true, automatable := true,
       automationTrigger := 60, revenueOpportunity := taxPreparationPrice,
       taxType := some t.type, period := some "annual" }]
  else []

/-- `createBusinessLicenseEvent(state, year)`
(compliance_revenue_engine.js:609-625); due December 31st. -/
def createBusinessLicenseEvent (state : String) (reqs : StateReqs) (year : Nat) : GEvent :=
  { id := "LIC-" ++ state ++ "-" ++ Nat.repr year,
    type := "license_renewal", title := "Business License Renewal",
    dueDate := mkDate year 11 31,
    cost := reqs.businessLicenseFee, penalty := 25,
    critical := false, automatable := true, automationTrigger := 60,
    revenueOpportunity := 149, taxType := none, period := none }

/-- `createRegisteredAgentEvent(state, year, formationDate)`
(compliance_revenue_engine.js:627-645): copy the formation date and
`setFullYear(year)`. -/
def createRegisteredAgentEvent (state : String) (reqs : StateReqs) (year : Nat)
    (formationDate : GDate) : GEvent :=
  { id := "RA-" ++ state ++ "-" ++ Nat.repr year,
    type := "registered_agent", title := "Registered Agent Service Renewal",
    dueDate := ⟨(year : Int), formationDate.month, formationDate.day⟩,
    cost := reqs.registeredAgentCost, penalty := 0,
    critical := true, automatable := true, automationTrigger := 30,
    revenueOpportunity := registeredAgentPrice, taxType := none, period := none }

/-- `createFederalTaxEvents(year, businessType)`
(compliance_revenue_engine.js:647-683): one federal income return plus four
quarterly estimated payments (`businessType` is never read). -/
def createFederalTaxEvents (year : Nat) : List GEvent :=
  { id := "FED-INCOME-" ++ Nat.repr year,
    type := "tax_filing", title := "Federal Income Tax Return",
    dueDate := mkDate ((year : Int) + 1) 2 15,
    cost := 0, penalty := 195, critical := true, automatable := true,
    automationTrigger := 60, revenueOpportunity := taxPreparationPrice,
    taxType := some "federal_income", period := some "annual" } ::
  (List.range 4).map (fun quarter =>
    { id := "FED-EST-" ++ Nat.repr year ++ "-Q" ++ Nat.repr (quarter + 1),
      type := "tax_filing", title := "Federal Estimated Tax Payment",
      dueDate := mkDate year ((quarter : Int) * 3 + 3) 15,
      cost := 0, penalty := 50, critical := false, automatable := true,
      automationTrigger := 30, revenueOpportunity := 75,
      taxType := some "estimated_tax", period := some "quarterly" })

/-- The events one iteration of the year loop of `createComplianceCalendar`
pushes (compliance_revenue_engine.js:160-186), in push order. -/
def yearEvents (state : String) (reqs : StateReqs) (formationDate : GDate)
    (year : Nat) : List GEvent :=
  (if reqs.annualReportRequired then [createAnnualReportEvent state reqs year formationDate]
   else [])
  ++ reqs.taxObligations.bind (fun t => createTaxEvents t year)
  ++ (if reqs.businessLicenseRequired then [createBusinessLicenseEvent state reqs year]
      else [])
  ++ [createRegisteredAgentEvent state reqs year formationDate]
  ++ createFederalTaxEvents year

/-- The full unsorted event list: the loop runs for
`year = currentYear .. currentYear + 2` (a fixed 3-year horizon). -/
def generatedEvents (state : String) (reqs : StateReqs) (formationDate : GDate)
    (currentYear : Nat) : List GEvent :=
  (List.range 3).bind (fun i => yearEvents state reqs formationDate (currentYear + i))

/-- Chronological comparison of the (already month-normalized) due dates,
matching the `new Date(a.dueDate) - new Date(b.dueDate)` comparator. -/
def dateLT (a b : GDate) : Bool :=
  a.year < b.year ||
    (a.year == b.year && (a.month < b.month || (a.month == b.month && a.day < b.day)))

/-- Stable insertion used to model `complianceEvents.sort` (JS `Array.sort`
is stable): insert after every event that is not strictly later. -/
def insertByDue (e : GEvent) : List GEvent → List GEvent
  | [] => [e]
  | x :: xs => if dateLT x.dueDate e.dueDate then x :: insertByDue e xs else e :: x :: xs

/-- `complianceEvents.sort((a, b) => new Date(a.dueDate) - new Date(b.dueDate))`
(compliance_revenue_engine.js:189). -/
def sortByDue : List GEvent → List GEvent
  | [] => []
  | x :: xs => insertByDue x (sortByDue xs)

/-- The `events` list of the calendar object built by
`createComplianceCalendar(companyData)` (compliance_revenue_engine.js:144-205);
`none` models the throw on an unsupported state.  `currentYear` is
`new Date().getFullYear()` at generation time. -/
def createComplianceCalendarEvents (state : String) (formationDate : GDate)
    (currentYear : Nat) : Option (List GEvent) :=
  (complianceRequirements state).map
    (fun reqs => sortByDue (generatedEvents state reqs formationDate currentYear))

/-! ### Compliance monitor (`compliance_revenue_engine.js:264-412`)

The monitor re-reads the persisted calendar, classifies events against
`new Date()` and dispatches the actionable ones.  On the monitor side a due
date is the parsed millisecond timestamp of the stored ISO string, and `now`
is the millisecond timestamp of `new Date()`. -/

structure MonEvent where
  id : String
  type : String
  dueDate : Int
  automatable : Bool
  automationTrigger : Int
  revenueOpportunity : Rat
  cost : Rat
deriving DecidableEq

/-- A persisted compliance calendar record
(`llc_formation.compliance_calendars`, `calendar_data` column). -/
structure MonCalendar where
  id : String
  businessName : String
  state : String
  events : List MonEvent
deriving DecidableEq

def msPerDay : Int := 86400000

/-- `Math.ceil((eventDate - today) / (1000 * 60 * 60 * 24))`
(compliance_revenue_engine.js:283): the ceiling of the exact day quotient,
written through the floor division `Int.fdiv`
(`Math.ceil q = -Math.floor (-q)`). -/
def daysUntilDue (due now : Int) : Int :=
  -(Int.fdiv (now - due) msPerDay)

/-- Membership test of the `overdueEvents` bucket
(compliance_revenue_engine.js:285-287): `daysUntilDue < 0`, with no look at
any status. -/
def isOverdue (e : MonEvent) (now : Int) : Bool :=
  daysUntilDue e.dueDate now < 0

/-- Membership test of the `upcomingEvents` bucket (`else if` branch,
compliance_revenue_engine.js:288-291). -/
def isUpcoming (e : MonEvent) (now : Int) : Bool :=
  !(daysUntilDue e.dueDate now < 0) && daysUntilDue e.dueDate now ≤ 30

/-- Membership test of the `actionableEvents` bucket
(compliance_revenue_engine.js:294-296): automatable and inside the trigger
window; again no status is consulted. -/
def isActionable (e : MonEvent) (now : Int) : Bool :=
  e.automatable && daysUntilDue e.dueDate now ≤ e.automationTrigger

def overdueEvents (evs : List MonEvent) (now : Int) : List MonEvent :=
  evs.filter (fun e => isOverdue e now)

def upcomingEvents (evs : List MonEvent) (now : Int) : List MonEvent :=
  evs.filter (fun e => isUpcoming e now)

def actionableEvents (evs : List MonEvent) (now : Int) : List MonEvent :=
  evs.filter (fun e => isActionable e now)

/-- Overall report status (compliance_revenue_engine.js:305). -/
def reportStatus (overdue upcoming : List MonEvent) : String :=
  if !overdue.isEmpty then "NON_COMPLIANT"
  else if !upcoming.isEmpty then "ACTION_REQUIRED"
  else "COMPLIANT"

/-- The compliance report built by `monitorCompliance`
(compliance_revenue_engine.js:300-316), reduced to the claim-relevant
fields.  The bucket lists hold the classified events (the source spreads
shallow copies, plus derived day counts, into `upcoming`/`overdue`). -/
structure MonReport where
  status : String
  upcoming : List MonEvent
  overdue : List MonEvent
  actionable : List MonEvent
deriving DecidableEq

/-- Result of `executeAutomatedCompliance` for one event
(compliance_revenue_engine.js:361-412). -/
structure ActionResult where
  eventId : String
  success : Bool
  revenue : Rat
deriving DecidableEq

/-- The service fee each `automate*` branch reports as revenue. -/
def serviceFee (t : String) : Rat :=
  if t = "annual_report" then annualReportFilingPrice
  else if t = "tax_filing" then taxPreparationPrice
  else if t = "license_renewal" then 149
  else if t = "registered_agent" then registeredAgentPrice
  else 0

def supportedEventTypes : List String :=
  ["annual_report", "tax_filing", "license_renewal", "registered_agent"]

/-- `executeAutomatedCompliance(event, calendar)`: dispatch on `event.type`;
unsupported types yield `success: false`.  `ext` is the oracle for the
external collaborators inside the branch (document generation, memory
logging): when it reports failure the catch block returns
`success: false, revenue: 0`.  In no branch is the event or the stored
calendar written. -/
def executeAutomatedCompliance (e : MonEvent) (ext : String → Bool) : ActionResult :=
  if supportedEventTypes.contains e.type then
    if ext e.id then ⟨e.id, true, serviceFee e.type⟩ else ⟨e.id, false, 0⟩
  else ⟨e.id, false, 0⟩

/-- The persisted store of compliance calendars, keyed by `calendar_id`. -/
abbrev CalStore : Type := List (String × MonCalendar)

def lookupCal (store : CalStore) (calId : String) : Option MonCalendar :=
  List.lookup calId store

/-- One `monitorCompliance(calendarId)` pass
(compliance_revenue_engine.js:264-355): read the calendar, classify every
event against `now`, build the report, dispatch every actionable event.
The function returns the response together with the store after the call;
the source contains no `UPDATE` of `compliance_calendars` and never writes
an event, so the store component is returned unchanged. -/
def monitorCompliance (store : CalStore) (calId : String) (now : Int)
    (ext : String → Bool) : Option (MonReport × List ActionResult) × CalStore :=
  match lookupCal store calId with
  | none => (none, store)
  | some cal =>
    let up := upcomingEvents cal.events now
    let ov := overdueEvents cal.events now
    let act := actionableEvents cal.events now
    (some (⟨reportStatus ov up, up, ov, act⟩,
           act.map (fun e => executeAutomatedCompliance e ext)), store)

/-! ### Concrete states used by witnesses and counterexamples -/

/-- Test-state builder: a copy of `steps` with the status of the step named
`sid` replaced (used only to set up concrete witness states). -/
def withStatus (steps : List WStep) (sid status : String) : List WStep :=
  steps.map (fun s => if s.id = sid then { s with status := status } else s)

/-- A persisted workflow whose `registered_agent` step is currently
`in_progress` (its dependency `name_check` already completed). -/
def c1Wf : Workflow :=
  { freshFLWorkflow with
    steps := withStatus (withStatus flSteps "name_check" "completed")
      "registered_agent" "in_progress" }

/-- A workflow whose `compliance_setup` step is recorded `completed` while
its dependency `articles_filing` is still `pending`. -/
def c2Wf : Workflow :=
  { freshFLWorkflow with
    steps := withStatus flSteps "compliance_setup" "completed" }

/-- The completion flag of the response (`workflowCompleted`), false for the
early-return responses. -/
def ExecResponse.completedFlag : ExecResponse → Bool
  | .executed _ _ f => f
  | _ => false

/-- A workflow in which every critical step except `compliance_setup` is
completed and every non-critical step is still pending. -/
def c6Wf : Workflow :=
  { freshFLWorkflow with
    steps := withStatus (withStatus (withStatus (withStatus (withStatus flSteps
      "name_check" "completed") "registered_agent" "completed")
      "articles_prep" "completed") "articles_filing" "completed")
      "ein_application" "completed" }

/-- An event due half a day before `now` (12 hours overdue). -/
def c3Ev : MonEvent :=
  ⟨"AR-FL-2024", "annual_report", 43200000, true, 45, 149, 0⟩

def c4Ev : MonEvent :=
  ⟨"AR-FL-2025", "annual_report", 864000000, true, 15, 149, 0⟩

def c4Cal : MonCalendar :=
  ⟨"CAL1", "Acme LLC", "FL", [c4Ev]⟩

def c7Ev : MonEvent :=
  ⟨"AR-FL-2023", "annual_report", 0, true, 45, 149, 0⟩

def c7Cal : MonCalendar :=
  ⟨"CAL7", "Acme LLC", "FL", [c7Ev]⟩

/-! ### Decimal rendering: `Nat.repr` digit facts

`createComplianceCalendar` builds event ids with JS template literals whose
numeric parts render in decimal (`Nat.repr` in this embedding).  To prove
id uniqueness for an arbitrary generation year we parse an id into its
leading non-digit block, the value of its first digit block (the year), and
the remainder, and show the parse is faithful on `prefix ++ repr y ++ rest`
shapes. -/

/-- The decimal digit list of `n`, most significant first (the character
sequence `Nat.repr` produces). -/
def decDigits (n : Nat) : List Char :=
  if h : n < 10 then [Nat.digitChar (n % 10)]
  else
    have hd : n / 10 < n := Nat.div_lt_self (by omega) (by omega)
    decDigits (n / 10) ++ [Nat.digitChar (n % 10)]

/-- Decimal value of a digit-character list (most significant first). -/
def digitsVal (l : List Char) : Nat :=
  l.foldl (fun a c => 10 * a + (c.toNat - 48)) 0

/-- Split off the maximal non-digit leading segment. -/
def splitNonDigits : List Char → List Char × List Char
  | [] => ([], [])
  | c :: l =>
    if c.isDigit then ([], c :: l)
    else ((splitNonDigits l).1.cons c, (splitNonDigits l).2)

/-- Split off the maximal digit leading segment. -/
def splitDigits : List Char → List Char × List Char
  | [] => ([], [])
  | c :: l =>
    if c.isDigit then ((splitDigits l).1.cons c, (splitDigits l).2)
    else ([], c :: l)

/-- Fingerprint of an id string: leading non-digit part, value of the first
digit block, and the remainder. -/
def phiData (l : List Char) : List Char × Nat × List Char :=
  ((splitNonDigits l).1, digitsVal (splitDigits (splitNonDigits l).2).1,
    (splitDigits (splitNonDigits l).2).2)

def phi (s : String) : List Char × Nat × List Char := phiData s.data

def tripleList (T : List (List Char × List Char)) (y : Nat) :
    List (List Char × Nat × List Char) :=
  T.map (fun t => (t.1, y, t.2))

/-- The (prefix-block, suffix-block) templates of the 24 ids one FL loop
year generates, in generation order. -/
def flTemplates : List (List Char × List Char) :=
  [(("AR-" ++ "FL" ++ "-").data, [])]
  ++ (List.range 12).map (fun m =>
      ((("TAX-" ++ "Sales Tax" ++ "-").data), (("-" : String) ++ Nat.repr (m + 1)).data))
  ++ (List.range 4).map (fun q =>
      ((("TAX-" ++ "Reemployment Tax" ++ "-").data), (("-Q" : String) ++ Nat.repr (q + 1)).data))
  ++ [(("LIC-" ++ "FL" ++ "-").data, [])]
  ++ [(("RA-" ++ "FL" ++ "-").data, [])]
  ++ [(("FED-INCOME-" : String).data, [])]
  ++ (List.range 4).map (fun q =>
      ((("FED-EST-" : String).data), (("-Q" : String) ++ Nat.repr (q + 1)).data))

/-- The 7 id templates of one WY loop year (the `Monthly/Quarterly`
frequency string matches no `switch` branch, so WY sales tax produces no
events; WY requires no business license). -/
def wyTemplates : List (List Char × List Char) :=
  [(("AR-WY-" : String).data, [])]
  ++ [(("RA-WY-" : String).data, [])]
  ++ [(("FED-INCOME-" : String).data, [])]
  ++ (List.range 4).map (fun q =>
      ((("FED-EST-" : String).data), (("-Q" : String) ++ Nat.repr (q + 1)).data))

/-- The 21 id templates of one IL loop year. -/
def ilTemplates : List (List Char × List Char) :=
  [(("AR-IL-" : String).data, [])]
  ++ [(("TAX-Income Tax-" : String).data, [])]
  ++ (List.range 12).map (fun m =>
      ((("TAX-Sales Tax-" : String).data), (("-" : String) ++ Nat.repr (m + 1)).data))
  ++ [(("LIC-IL-" : String).data, [])]
  ++ [(("RA-IL-" : String).data, [])]
  ++ [(("FED-INCOME-" : String).data, [])]
  ++ (List.range 4).map (fun q =>
      ((("FED-EST-" : String).data), (("-Q" : String) ++ Nat.repr (q + 1)).data))

example : (executeWorkflowStep freshFLWorkflow "name_check" true 0).effectRan = true := by decide

example : (executeWorkflowStep freshFLWorkflow "articles_prep" true 0).resp =
    .depsNotCompleted ["name_check", "registered_agent"] := by decide

/-- Unfolding lemma: the early return on an already-completed step
(workflow_automation_engine.js:222-224). -/
theorem executeWorkflowStep_completed (wf : Workflow) (stepId : String)
    (outcome : Bool) (now : Int) (st : WStep)
    (hf : findStep wf.steps stepId = some st)
    (hc : st.status = "completed") :
    executeWorkflowStep wf stepId outcome now = ⟨wf, .alreadyCompleted st.result, false⟩ := by
  simp [executeWorkflowStep, hf, hc]

/-- Unfolding lemma: the early return when dependencies are missing
(workflow_automation_engine.js:227-233). -/
theorem executeWorkflowStep_missing (wf : Workflow) (stepId : String)
    (outcome : Bool) (now : Int) (st : WStep)
    (hf : findStep wf.steps stepId = some st)
    (hc : ¬ st.status = "completed")
    (hm : ¬ missingDeps wf.steps stepId = []) :
    executeWorkflowStep wf stepId outcome now =
      ⟨wf, .depsNotCompleted (missingDeps wf.steps stepId), false⟩ := by
  simp [executeWorkflowStep, hf, hc, List.isEmpty_iff, hm]

/-- Unfolding lemma: the path that dispatches side-effecting work and
persists the updated workflow (workflow_automation_engine.js:235-317). -/
theorem executeWorkflowStep_run (wf : Workflow) (stepId : String)
    (outcome : Bool) (now : Int) (st : WStep)
    (hf : findStep wf.steps stepId = some st)
    (hc : ¬ st.status = "completed")
    (hm : missingDeps wf.steps stepId = [])
    (hk : knownStepIds.contains stepId = true) :
    executeWorkflowStep wf stepId outcome now =
      (let st1 : WStep :=
        { st with
          status := if outcome then "completed" else "failed",
          startDate := some now, completedDate := some now, result := some outcome }
      let steps1 := updateFirst wf.steps stepId st1
      let prog : Rat := ((countCompleted steps1 : Rat) / (steps1.length : Rat)) * 100
      ⟨{ wf with
          steps := steps1, progress := prog, nextAction := nextPendingStep steps1,
          dbStatus := if decide (prog = 100) then "completed" else wf.dbStatus },
        .executed outcome prog (decide (prog = 100)), true⟩) := by
  simp [executeWorkflowStep, hf, hc, hm]
  simpa using hk

example : (generatedEvents "WY" wyReqs ⟨2024, 2, 10⟩ 2024).length = 21 := by decide

example :
    ((createComplianceCalendarEvents "WY" ⟨2024, 2, 10⟩ 2024).getD []).length = 21 := by decide

example : daysUntilDue 43200000 86400000 = 0 := by decide

example : daysUntilDue 0 432000000 = -5 := by decide

example : daysUntilDue 864000000 0 = 10 := by decide

/-! ### Helper lemmas about `executeWorkflowStep` -/

theorem updateFirst_length (steps : List WStep) (sid : String) (s0 : WStep) :
    (updateFirst steps sid s0).length = steps.length := by
  induction steps with
  | nil => rfl
  | cons s rest ih =>
    by_cases h : s.id == sid
    · simp [updateFirst, h]
    · simp [updateFirst, h, ih]

theorem countCompleted_cons (s : WStep) (l : List WStep) :
    countCompleted (s :: l) =
      (if s.status == "completed" then 1 else 0) + countCompleted l := by
  by_cases h : s.status == "completed"
  · simp [countCompleted, List.filter, h, Nat.add_comm]
  · simp [countCompleted, List.filter, h]

/-- Replacing the first step found by `find` (and known not to be
`completed`) can only increase the number of completed steps. -/
theorem countCompleted_updateFirst (steps : List WStep) (sid : String)
    (s0 st : WStep) (hf : findStep steps sid = some st)
    (hst : ¬ st.status = "completed") :
    countCompleted steps ≤ countCompleted (updateFirst steps sid s0) := by
  induction steps with
  | nil => simp [findStep] at hf
  | cons s rest ih =>
    by_cases h : s.id == sid
    · have hs : st = s := by
        simp [findStep, List.find?, h] at hf
        exact hf.symm
      subst hs
      have hns : (st.status == "completed") = false := by
        simpa using hst
      simp only [updateFirst, h, if_pos, countCompleted_cons, hns]
      simp [Nat.add_le_add_right]
    · have hf2 : findStep rest sid = some st := by
        simpa [findStep, List.find?, h] using hf
      simp only [updateFirst, h, if_neg, Bool.false_eq_true, not_false_iff,
        countCompleted_cons]
      exact Nat.add_le_add_left (ih hf2) _

theorem findStep_mem (steps : List WStep) (sid : String) (st : WStep)
    (hf : findStep steps sid = some st) : st ∈ steps :=
  List.mem_of_find?_eq_some hf

/-- The completion flag is exact: `progress === 100` holds iff every step
counts as completed. -/
theorem progressFlag_eq (c n : Nat) (hn : n ≠ 0) :
    (decide ((((c : Rat) / (n : Rat)) * 100) = 100)) = decide (c = n) := by
  rw [decide_eq_decide]
  have hn0 : (n : Rat) ≠ 0 := Nat.cast_ne_zero.mpr hn
  constructor
  · intro h
    have h2 : (c : Rat) * 100 = (n : Rat) * 100 := by
      field_simp at h
      linarith
    have : (c : Rat) = (n : Rat) := by linarith
    exact_mod_cast this
  · intro h
    subst h
    field_simp

theorem countCompleted_eq_length_iff (steps : List WStep) :
    countCompleted steps = steps.length ↔ ∀ s ∈ steps, s.status = "completed" := by
  unfold countCompleted
  rw [← List.countP_eq_length_filter, List.countP_eq_length]
  constructor
  · intro h s hs
    simpa using h s hs
  · intro h s hs
    simpa using h s hs

/-! ### Claim C1: no guard on `in_progress` steps -/

/-- C1 counterexample: `executeWorkflowStep` checks only
`step.status === 'completed'`; called on a step that is `in_progress` it
does not return an `AlreadyInProgress` signal: it passes the dependency
check, dispatches the side-effecting `execute*` work again and commits a new
state for the step — so a second call while one is in flight re-executes the
step instead of being rejected. -/
theorem C1_counterexample :
    (findStep c1Wf.steps "registered_agent").map WStep.status = some "in_progress" ∧
    (executeWorkflowStep c1Wf "registered_agent" true 0).effectRan = true ∧
    (findStep (executeWorkflowStep c1Wf "registered_agent" true 0).wf.steps
      "registered_agent").map WStep.status = some "completed" := by
  refine ⟨by decide, by decide, by decide⟩

/-- C1 as amended: only `completed` is guarded.  A call on a `completed`
step returns the already-completed signal, performs no side-effecting work
and leaves the persisted instance untouched; but a call on an `in_progress`
step whose dependencies are completed dispatches the side-effecting work
again (there is no `AlreadyInProgress` signal and no
at-most-one-execution-in-flight guarantee). -/
theorem C1_theorem (wf : Workflow) (stepId : String) (outcome : Bool)
    (now : Int) (st : WStep) (hf : findStep wf.steps stepId = some st) :
    (st.status = "completed" →
      executeWorkflowStep wf stepId outcome now = ⟨wf, .alreadyCompleted st.result, false⟩) ∧
    (st.status = "in_progress" → missingDeps wf.steps stepId = [] →
      knownStepIds.contains stepId = true →
      (executeWorkflowStep wf stepId outcome now).effectRan = true) := by
  constructor
  · intro hc
    exact executeWorkflowStep_completed wf stepId outcome now st hf hc
  · intro hs hm hk
    have hc : ¬ st.status = "completed" := by rw [hs]; decide
    rw [executeWorkflowStep_run wf stepId outcome now st hf hc hm hk]

/-- Witness for `C1_theorem` at a concrete workflow. -/
theorem C1_witness :
    (executeWorkflowStep c1Wf "registered_agent" true 0).effectRan = true := by
  have h := C1_theorem c1Wf "registered_agent" true 0
    { id := "registered_agent", name := "Secure Registered Agent", duration := 1,
      critical := true, status := "in_progress", startDate := none,
      completedDate := none, result := none, dependencies := ["name_check"] }
    (by decide)
  exact h.2 (by decide) (by decide) (by decide)

/-! ### Claim C2: dependency failure only guards non-completed steps -/

/-- C2 counterexample: the already-completed early return precedes the
dependency check, so on a workflow state whose `compliance_setup` step is
`completed` while its dependency `articles_filing` is not, the call does not
fail with the dependency error — it returns the already-completed success
response. -/
theorem C2_counterexample :
    "articles_filing" ∈ getStepDependencies "compliance_setup" ∧
    (findStep c2Wf.steps "articles_filing").map WStep.status = some "pending" ∧
    (executeWorkflowStep c2Wf "compliance_setup" true 0).resp =
      .alreadyCompleted none := by
  refine ⟨by decide, by decide, by decide⟩

/-- C2 as amended: for a step that is **not already completed**, an
unsatisfied dependency makes `executeWorkflowStep` fail with the
dependency-not-completed error, dispatch no side-effecting work, and leave
the persisted workflow instance (every step and every other field) exactly
as it was. -/
theorem C2_theorem (wf : Workflow) (stepId : String) (outcome : Bool)
    (now : Int) (st : WStep) (hf : findStep wf.steps stepId = some st)
    (hc : ¬ st.status = "completed")
    (hm : ¬ missingDeps wf.steps stepId = []) :
    executeWorkflowStep wf stepId outcome now =
      ⟨wf, .depsNotCompleted (missingDeps wf.steps stepId), false⟩ :=
  executeWorkflowStep_missing wf stepId outcome now st hf hc hm

/-- Witness for `C2_theorem`: a fresh FL workflow rejects `articles_prep`
with both of its dependencies reported missing and no state change. -/
theorem C2_witness :
    executeWorkflowStep freshFLWorkflow "articles_prep" true 0 =
      ⟨freshFLWorkflow, .depsNotCompleted ["name_check", "registered_agent"], false⟩ := by
  have h := C2_theorem freshFLWorkflow "articles_prep" true 0
    (mkPendingStep "articles_prep" "Prepare Articles of Organization" 1 true)
    (by decide) (by decide) (by decide)
  have hm : missingDeps freshFLWorkflow.steps "articles_prep" =
      ["name_check", "registered_agent"] := by decide
  rw [h, hm]

/-! ### Claim C6: workflow completion requires every step, not every critical step -/

/-- C6 counterexample: after executing the last critical step of `c6Wf`,
every step flagged `critical` is completed, yet the workflow is *not* marked
completed (`completeWorkflow` fires only on `progress === 100`, i.e. when
*all* nine steps are completed, and three non-critical steps are still
pending). -/
theorem C6_counterexample :
    (∀ s ∈ (executeWorkflowStep c6Wf "compliance_setup" true 0).wf.steps,
      s.critical = true → s.status = "completed") ∧
    (executeWorkflowStep c6Wf "compliance_setup" true 0).wf.dbStatus = "created" ∧
    (executeWorkflowStep c6Wf "compliance_setup" true 0).resp.completedFlag = false := by
  have hrun := executeWorkflowStep_run c6Wf "compliance_setup" true 0
    (mkPendingStep "compliance_setup" "Setup Compliance Calendar" 1 true)
    (by decide) (by decide) (by decide) (by decide)
  rw [hrun]
  simp only []
  rw [progressFlag_eq _ _ (by decide)]
  decide

/-- Auxiliary characterization of the completion flag and the resulting
`status` column value, in terms of the post-call step list. -/
theorem completion_iff_aux (u : List WStep) (d : String) (hn0 : u.length ≠ 0) :
    ((decide ((((countCompleted u : Rat)) / (u.length : Rat)) * 100 = 100)) = true ↔
      ∀ s ∈ u, s.status = "completed") ∧
    (((if decide ((((countCompleted u : Rat)) / (u.length : Rat)) * 100 = 100)
        then "completed" else d) = "completed") ↔
      (d = "completed" ∨ ∀ s ∈ u, s.status = "completed")) := by
  have hfl : (decide ((((countCompleted u : Rat)) / (u.length : Rat)) * 100 = 100)) =
      decide (countCompleted u = u.length) := progressFlag_eq _ _ hn0
  simp only [hfl]
  by_cases hcn : countCompleted u = u.length
  · have hall := (countCompleted_eq_length_iff u).mp hcn
    have hd : decide (countCompleted u = u.length) = true := by simpa using hcn
    simp only [hd]
    refine ⟨?_, ?_⟩
    · simpa using hall
    · simpa using Or.inr (a := d = "completed") hall
  · have hnall : ¬ ∀ s ∈ u, s.status = "completed" :=
      fun h => hcn ((countCompleted_eq_length_iff u).mpr h)
    simp [hcn, hnall]

/-- C6 as amended: on the executing path, the workflow is marked completed
exactly when **every** step (critical or not) is completed: the
`workflowCompleted` flag is `progress === 100`, and the `status` column is
set to `completed` only then (otherwise it keeps its previous value).  The
`critical` flag of the steps plays no part in completion. -/
theorem C6_theorem (wf : Workflow) (stepId : String) (outcome : Bool)
    (now : Int) (st : WStep) (hf : findStep wf.steps stepId = some st)
    (hc : ¬ st.status = "completed")
    (hm : missingDeps wf.steps stepId = [])
    (hk : knownStepIds.contains stepId = true) :
    ((executeWorkflowStep wf stepId outcome now).resp.completedFlag = true ↔
      ∀ s ∈ (executeWorkflowStep wf stepId outcome now).wf.steps,
        s.status = "completed") ∧
    ((executeWorkflowStep wf stepId outcome now).wf.dbStatus = "completed" ↔
      (wf.dbStatus = "completed" ∨
        ∀ s ∈ (executeWorkflowStep wf stepId outcome now).wf.steps,
          s.status = "completed")) := by
  have hne : wf.steps ≠ [] := by
    intro h0
    rw [h0] at hf
    simp [findStep] at hf
  have hn0 : (updateFirst wf.steps stepId
      { st with
        status := if outcome then "completed" else "failed",
        startDate := some now, completedDate := some now,
        result := some outcome }).length ≠ 0 := by
    rw [updateFirst_length]
    intro h0
    exact hne (List.length_eq_zero.mp h0)
  rw [executeWorkflowStep_run wf stepId outcome now st hf hc hm hk]
  simp only [ExecResponse.completedFlag]
  exact completion_iff_aux _ wf.dbStatus hn0

/-- Witness for `C6_theorem` at the concrete workflow `c6Wf`. -/
theorem C6_witness :
    ((executeWorkflowStep c6Wf "compliance_setup" true 0).resp.completedFlag = true ↔
      ∀ s ∈ (executeWorkflowStep c6Wf "compliance_setup" true 0).wf.steps,
        s.status = "completed") ∧
    ((executeWorkflowStep c6Wf "compliance_setup" true 0).wf.dbStatus = "completed" ↔
      (c6Wf.dbStatus = "completed" ∨
        ∀ s ∈ (executeWorkflowStep c6Wf "compliance_setup" true 0).wf.steps,
          s.status = "completed")) :=
  C6_theorem c6Wf "compliance_setup" true 0
    (mkPendingStep "compliance_setup" "Setup Compliance Calendar" 1 true)
    (by decide) (by decide) (by decide) (by decide)

/-! ### Claim C8: progress formula and monotonicity -/

/-- C8: `progress` always equals `completedSteps/totalSteps*100` (the
invariant established at creation, where `progress` is `0` with no step
completed, and re-established by the recomputation after each transition),
and no `executeWorkflowStep` call ever lowers it: the early returns change
nothing, and the executing path replaces one non-completed step by a
completed or failed one, so the completed count cannot drop. -/
theorem C8_theorem (wf : Workflow) (stepId : String) (outcome : Bool) (now : Int)
    (hinv : wf.progress = ((countCompleted wf.steps : Rat) / (wf.steps.length : Rat)) * 100) :
    (executeWorkflowStep wf stepId outcome now).wf.progress =
      ((countCompleted (executeWorkflowStep wf stepId outcome now).wf.steps : Rat) /
        ((executeWorkflowStep wf stepId outcome now).wf.steps.length : Rat)) * 100 ∧
    wf.progress ≤ (executeWorkflowStep wf stepId outcome now).wf.progress := by
  rcases hfind : findStep wf.steps stepId with _ | st
  · simp [executeWorkflowStep, hfind, hinv]
  · by_cases hc : st.status = "completed"
    · rw [executeWorkflowStep_completed wf stepId outcome now st hfind hc]
      exact ⟨hinv, le_refl _⟩
    · by_cases hm : missingDeps wf.steps stepId = []
      · by_cases hk : knownStepIds.contains stepId = true
        · rw [executeWorkflowStep_run wf stepId outcome now st hfind hc hm hk]
          simp only []
          constructor
          · trivial
          · rw [hinv]
            have hlen := updateFirst_length wf.steps stepId
              { st with
                status := if outcome then "completed" else "failed",
                startDate := some now, completedDate := some now,
                result := some outcome }
            have hcount := countCompleted_updateFirst wf.steps stepId
              { st with
                status := if outcome then "completed" else "failed",
                startDate := some now, completedDate := some now,
                result := some outcome } st hfind hc
            have hne : wf.steps ≠ [] := by
              intro h0
              rw [h0] at hfind
              simp [findStep] at hfind
            have hpos : (0 : Rat) < (wf.steps.length : Rat) := by
              have := List.length_pos.mpr hne
              exact_mod_cast this
            rw [hlen]
            have hdiv : ((countCompleted wf.steps : Rat) / (wf.steps.length : Rat)) ≤
                ((countCompleted (updateFirst wf.steps stepId
                  { st with
                    status := if outcome then "completed" else "failed",
                    startDate := some now, completedDate := some now,
                    result := some outcome }) : Rat) / (wf.steps.length : Rat)) := by
              apply div_le_div_of_nonneg_right ?_ (le_of_lt hpos)
              exact_mod_cast hcount
            nlinarith [hdiv]
        · have hk3 : stepId ∉ knownStepIds := by
            intro hmem
            exact hk (by simpa using hmem)
          simp [executeWorkflowStep, hfind, hc, hm, hk3, hinv]
      · rw [executeWorkflowStep_missing wf stepId outcome now st hfind hc hm]
        exact ⟨hinv, le_refl _⟩

/-- Witness for `C8_theorem`: a fresh FL workflow (progress `0`, nothing
completed) executing its first step. -/
theorem C8_witness :
    (executeWorkflowStep freshFLWorkflow "name_check" true 0).wf.progress =
      ((countCompleted (executeWorkflowStep freshFLWorkflow "name_check" true 0).wf.steps : Rat) /
        ((executeWorkflowStep freshFLWorkflow "name_check" true 0).wf.steps.length : Rat)) * 100 ∧
    freshFLWorkflow.progress ≤
      (executeWorkflowStep freshFLWorkflow "name_check" true 0).wf.progress := by
  have h := C8_theorem freshFLWorkflow "name_check" true 0 ?_
  · exact h
  · have h0 : countCompleted freshFLWorkflow.steps = 0 := by decide
    have h9 : freshFLWorkflow.steps.length = 9 := by decide
    rw [h0, h9]
    norm_num [freshFLWorkflow]

/-! ### Helper lemmas about the monitor -/

/-- One monitor pass on a calendar that exists: the response lists exactly
the classified buckets and one dispatch per actionable event, and the store
is returned unchanged. -/
theorem monitorCompliance_found (store : CalStore) (calId : String) (now : Int)
    (ext : String → Bool) (cal : MonCalendar)
    (h : lookupCal store calId = some cal) :
    monitorCompliance store calId now ext =
      (some (⟨reportStatus (overdueEvents cal.events now) (upcomingEvents cal.events now),
              upcomingEvents cal.events now, overdueEvents cal.events now,
              actionableEvents cal.events now⟩,
             (actionableEvents cal.events now).map
               (fun e => executeAutomatedCompliance e ext)), store) := by
  simp [monitorCompliance, h]

theorem executeAutomatedCompliance_eventId (e : MonEvent) (ext : String → Bool) :
    (executeAutomatedCompliance e ext).eventId = e.id := by
  unfold executeAutomatedCompliance
  split
  · split <;> rfl
  · rfl

/-! ### Claim C3: monitor classification (ceiling, and no status field) -/

/-- C3 counterexample: the source computes `daysUntilDue` with `Math.ceil`,
not `floor`.  For an event 12 hours past due, `floor((dueDate - now)/day)`
is `-1`, so under the claim the event (whose status is not `actioned` —
generated events carry no status at all) is `overdue`; the code computes
`ceil = 0` and classifies it `upcoming`, not `overdue`. -/
theorem C3_counterexample :
    Int.fdiv (c3Ev.dueDate - 86400000) msPerDay = -1 ∧
    isOverdue c3Ev 86400000 = false ∧
    isUpcoming c3Ev 86400000 = true := by
  refine ⟨by decide, by decide, by decide⟩

/-- C3 as amended: `daysUntilDue` is the **ceiling** `⌈(dueDate - now)/day⌉`
— the unique integer `d` with `msPerDay*(d-1) < dueDate - now ≤ msPerDay*d`,
as the first conjunct states — not the floor of the claim; the event
is overdue iff `daysUntilDue < 0`, upcoming iff `0 ≤ daysUntilDue ≤ 30`, and
actionable iff it is automatable and `daysUntilDue ≤ automationTriggerDays`.
Events carry no `status` field, so no bucket consult any status; each bucket
is thereby a pure function of `(dueDate, automatable, automationTriggerDays,
now)` — the right-hand sides below mention nothing else. -/
theorem C3_theorem (e : MonEvent) (now : Int) :
    (msPerDay * (daysUntilDue e.dueDate now - 1) < e.dueDate - now ∧
      e.dueDate - now ≤ msPerDay * daysUntilDue e.dueDate now) ∧
    (isOverdue e now = true ↔ daysUntilDue e.dueDate now < 0) ∧
    (isUpcoming e now = true ↔
      (0 ≤ daysUntilDue e.dueDate now ∧ daysUntilDue e.dueDate now ≤ 30)) ∧
    (isActionable e now = true ↔
      (e.automatable = true ∧ daysUntilDue e.dueDate now ≤ e.automationTrigger)) := by
  refine ⟨?_, ?_, ?_, ?_⟩
  · unfold daysUntilDue msPerDay
    rw [Int.fdiv_eq_ediv _ (by norm_num)]
    omega
  · simp [isOverdue]
  · simp [isUpcoming, Int.not_lt]
  · simp [isActionable]

/-! ### Claim C4: successful automation does not change the stored event -/

/-- C4 counterexample: an event 10 days from due with a 15-day trigger
window is actionable and is dispatched successfully, but nothing is written
back (there is no event status at all), so a second monitor pass over the
same calendar at the same time dispatches the very same event to the
executor again — the claimed `actioned` idempotence does not exist. -/
theorem C4_counterexample :
    (monitorCompliance [("CAL1", c4Cal)] "CAL1" 0 (fun _ => true)).1 =
      some (⟨"ACTION_REQUIRED", [c4Ev], [], [c4Ev]⟩, [⟨"AR-FL-2025", true, 149⟩]) ∧
    (monitorCompliance [("CAL1", c4Cal)] "CAL1" 0 (fun _ => true)).2 =
      [("CAL1", c4Cal)] ∧
    (monitorCompliance
        ((monitorCompliance [("CAL1", c4Cal)] "CAL1" 0 (fun _ => true)).2)
        "CAL1" 0 (fun _ => true)).1 =
      some (⟨"ACTION_REQUIRED", [c4Ev], [], [c4Ev]⟩, [⟨"AR-FL-2025", true, 149⟩]) := by
  refine ⟨by decide, by decide, by decide⟩

/-- C4 as amended: dispatching an actionable event — successfully or not —
never changes the stored calendar: the store after a pass is identical to
the store before, and any later pass over the same calendar dispatches every
event that is then actionable again (retry happens on success just as on
failure; nothing marks an event `actioned`). -/
theorem C4_theorem (store : CalStore) (calId : String) (now : Int)
    (ext : String → Bool) (cal : MonCalendar)
    (h : lookupCal store calId = some cal) :
    (monitorCompliance store calId now ext).2 = store ∧
    (monitorCompliance store calId now ext).1 =
      some (⟨reportStatus (overdueEvents cal.events now) (upcomingEvents cal.events now),
              upcomingEvents cal.events now, overdueEvents cal.events now,
              actionableEvents cal.events now⟩,
             (actionableEvents cal.events now).map
               (fun e => executeAutomatedCompliance e ext)) ∧
    (∀ now2 ext2,
      (monitorCompliance (monitorCompliance store calId now ext).2 calId now2 ext2).1 =
        some (⟨reportStatus (overdueEvents cal.events now2) (upcomingEvents cal.events now2),
                upcomingEvents cal.events now2, overdueEvents cal.events now2,
                actionableEvents cal.events now2⟩,
               (actionableEvents cal.events now2).map
                 (fun e => executeAutomatedCompliance e ext2))) := by
  have h1 := monitorCompliance_found store calId now ext cal h
  refine ⟨by rw [h1], by rw [h1], ?_⟩
  intro now2 ext2
  have hstore : (monitorCompliance store calId now ext).2 = store := by rw [h1]
  rw [hstore, monitorCompliance_found store calId now2 ext2 cal h]

/-- Witness for `C4_theorem` on a concrete one-event calendar. -/
theorem C4_witness :
    (monitorCompliance [("CALW", c4Cal)] "CALW" 0 (fun _ => true)).2 =
      [("CALW", c4Cal)] ∧
    (monitorCompliance [("CALW", c4Cal)] "CALW" 0 (fun _ => true)).1 =
      some (⟨reportStatus (overdueEvents c4Cal.events 0) (upcomingEvents c4Cal.events 0),
              upcomingEvents c4Cal.events 0, overdueEvents c4Cal.events 0,
              actionableEvents c4Cal.events 0⟩,
             (actionableEvents c4Cal.events 0).map
               (fun e => executeAutomatedCompliance e (fun _ => true))) ∧
    (∀ now2 ext2,
      (monitorCompliance
          (monitorCompliance [("CALW", c4Cal)] "CALW" 0 (fun _ => true)).2 "CALW" now2 ext2).1 =
        some (⟨reportStatus (overdueEvents c4Cal.events now2) (upcomingEvents c4Cal.events now2),
                upcomingEvents c4Cal.events now2, overdueEvents c4Cal.events now2,
                actionableEvents c4Cal.events now2⟩,
               (actionableEvents c4Cal.events now2).map
                 (fun e => executeAutomatedCompliance e ext2))) :=
  C4_theorem [("CALW", c4Cal)] "CALW" 0 (fun _ => true) c4Cal (by decide)

/-! ### Claim C7: overdue events keep being dispatched -/

/-- C7 counterexample: an automatable event five days past due (the
generated events have no status field, so nothing records `actioned` or
`overdue-unactioned`).  It is surfaced as overdue, but — against the claim —
the same pass *and* every later pass still dispatch it to the executor,
because the actionable test `daysUntilDue <= automationTrigger` is satisfied
by every negative `daysUntilDue`. -/
theorem C7_counterexample :
    (monitorCompliance [("CAL7", c7Cal)] "CAL7" 432000000 (fun _ => true)).1 =
      some (⟨"NON_COMPLIANT", [], [c7Ev], [c7Ev]⟩, [⟨"AR-FL-2023", true, 149⟩]) ∧
    (monitorCompliance
        ((monitorCompliance [("CAL7", c7Cal)] "CAL7" 432000000 (fun _ => true)).2)
        "CAL7" 518400000 (fun _ => true)).1 =
      some (⟨"NON_COMPLIANT", [], [c7Ev], [c7Ev]⟩, [⟨"AR-FL-2023", true, 149⟩]) := by
  refine ⟨by decide, by decide⟩

/-- C7 as amended: once an automatable event's `dueDate` has passed, every
monitor pass surfaces it in the overdue bucket **and keeps dispatching it to
the Automation Executor** (whenever its trigger window is nonnegative, a
negative `daysUntilDue` satisfies `daysUntilDue ≤ automationTrigger`); no
`overdue-unactioned` status exists and auto-retry never stops. -/
theorem C7_theorem (store : CalStore) (calId : String) (now : Int)
    (ext : String → Bool) (cal : MonCalendar) (e : MonEvent)
    (h : lookupCal store calId = some cal) (he : e ∈ cal.events)
    (ha : e.automatable = true)
    (hd : daysUntilDue e.dueDate now < 0)
    (ht : 0 ≤ e.automationTrigger) :
    ∃ rep res, (monitorCompliance store calId now ext).1 = some (rep, res) ∧
      e ∈ rep.overdue ∧ e.id ∈ res.map ActionResult.eventId := by
  have hov : e ∈ overdueEvents cal.events now := by
    rw [overdueEvents, List.mem_filter]
    exact ⟨he, by simpa [isOverdue] using hd⟩
  have hact : e ∈ actionableEvents cal.events now := by
    rw [actionableEvents, List.mem_filter]
    refine ⟨he, ?_⟩
    simp only [isActionable, ha, Bool.true_and, decide_eq_true_eq]
    omega
  refine ⟨_, _, by rw [monitorCompliance_found store calId now ext cal h], hov, ?_⟩
  rw [List.map_map]
  refine List.mem_map.mpr ⟨e, hact, ?_⟩
  exact executeAutomatedCompliance_eventId e ext

/-- Witness for `C7_theorem` on a concrete one-event calendar. -/
theorem C7_witness :
    ∃ rep res,
      (monitorCompliance [("CAL7", c7Cal)] "CAL7" 432000000 (fun _ => true)).1 =
        some (rep, res) ∧
      c7Ev ∈ rep.overdue ∧ c7Ev.id ∈ res.map ActionResult.eventId :=
  C7_theorem [("CAL7", c7Cal)] "CAL7" 432000000 (fun _ => true) c7Cal c7Ev
    (by decide) (by decide) rfl (by decide) (by decide)

/-! ### Claim C10: a monitor pass never writes the stored calendar -/

/-- C10: `monitorCompliance` performs no write to
`llc_formation.compliance_calendars` and mutates no event: after any pass
the store — and hence the monitored calendar record, every event and every
field of it — is exactly what it was before the call; the report and the
dispatches are built from reads alone. -/
theorem C10_theorem (store : CalStore) (calId : String) (now : Int)
    (ext : String → Bool) :
    (monitorCompliance store calId now ext).2 = store ∧
    lookupCal (monitorCompliance store calId now ext).2 calId =
      lookupCal store calId := by
  rcases h : lookupCal store calId with _ | cal
  · simp [monitorCompliance, h]
  · rw [monitorCompliance_found store calId now ext cal h]
    exact ⟨rfl, h⟩

/-! ### Claim C9: anniversary-based annual-report events -/

/-- C9: for the anniversary-based jurisdictions WY and IL, generating the
calendar for `formationDate = 2024-03-10` (month index 2) at generation year
2024 yields exactly three annual-report events, one per horizon year, each
due on the 15th of the formation month: 2024-03-15, 2025-03-15, 2026-03-15
(dates as 0-based-month triples). -/
theorem C9_theorem :
    (((createComplianceCalendarEvents "WY" ⟨2024, 2, 10⟩ 2024).getD []).filter
        (fun e => e.type == "annual_report")).map (fun e => (e.id, e.dueDate)) =
      [("AR-WY-2024", ⟨2024, 2, 15⟩), ("AR-WY-2025", ⟨2025, 2, 15⟩),
       ("AR-WY-2026", ⟨2026, 2, 15⟩)] ∧
    (((createComplianceCalendarEvents "IL" ⟨2024, 2, 10⟩ 2024).getD []).filter
        (fun e => e.type == "annual_report")).map (fun e => (e.id, e.dueDate)) =
      [("AR-IL-2024", ⟨2024, 2, 15⟩), ("AR-IL-2025", ⟨2025, 2, 15⟩),
       ("AR-IL-2026", ⟨2026, 2, 15⟩)] := by
  refine ⟨by decide, by decide⟩

/-! ### Claim C5: determinism, id scheme, and id uniqueness -/

/-- C5 counterexample: event ids are **not** a function of
`(type, year, period)`.  In the IL calendar generated in 2024, the Illinois
income-tax annual return (`TAX-Income Tax-2024`) and the federal income-tax
return (`FED-INCOME-2024`) are both created in loop year 2024 with
`type = tax_filing`, `period = annual`, and even the same due date
(March 15, 2025), yet they carry different ids — the id also encodes which
generator produced the event and for which tax. -/
theorem C5_counterexample :
    ∃ e1 ∈ (createComplianceCalendarEvents "IL" ⟨2024, 2, 10⟩ 2024).getD [],
      ∃ e2 ∈ (createComplianceCalendarEvents "IL" ⟨2024, 2, 10⟩ 2024).getD [],
        e1.type = e2.type ∧ e1.period = e2.period ∧ e1.dueDate = e2.dueDate ∧
        e1.id = "TAX-Income Tax-2024" ∧ e2.id = "FED-INCOME-2024" := by
  decide

/-! ### Digit-block and id-parse lemmas -/

theorem decDigits_def (n : Nat) :
    decDigits n =
      if n < 10 then [Nat.digitChar (n % 10)]
      else decDigits (n / 10) ++ [Nat.digitChar (n % 10)] := by
  rw [decDigits]
  by_cases h : n < 10
  · simp [h]
  · simp [h]

theorem toDigitsCore_eq_decDigits (f : Nat) :
    ∀ (n : Nat) (acc : List Char), n < f →
      Nat.toDigitsCore 10 f n acc = decDigits n ++ acc := by
  induction f with
  | zero => intro n acc h; omega
  | succ f ih =>
    intro n acc h
    by_cases h0 : n / 10 = 0
    · have hn : n < 10 := (Nat.div_eq_zero_iff (by norm_num)).mp h0
      simp [Nat.toDigitsCore, h0, decDigits_def, hn]
    · have hn : ¬ n < 10 := by
        intro hlt
        exact h0 (Nat.div_eq_of_lt hlt)
      have h10 : 10 ≤ n := by omega
      have hlt : n / 10 < f := by
        have h1 : n / 10 < n := Nat.div_lt_self (by omega) (by omega)
        omega
      simp only [Nat.toDigitsCore, h0, if_neg]
      rw [ih (n / 10) (Nat.digitChar (n % 10) :: acc) hlt]
      rw [decDigits_def n, if_neg hn]
      simp

theorem repr_data_eq_decDigits (n : Nat) : (Nat.repr n).data = decDigits n := by
  show (Nat.toDigits 10 n).asString.data = decDigits n
  unfold Nat.toDigits
  rw [toDigitsCore_eq_decDigits (n + 1) n [] (Nat.lt_succ_self n)]
  simp [List.asString]

theorem digitChar_isDigit : ∀ k : Nat, k < 10 → (Nat.digitChar k).isDigit = true := by
  decide

theorem digitChar_val : ∀ k : Nat, k < 10 → (Nat.digitChar k).toNat - 48 = k := by
  decide

theorem decDigits_all_digits (n : Nat) : ∀ c ∈ decDigits n, c.isDigit = true := by
  induction n using Nat.strong_induction_on with
  | _ n ih =>
    rw [decDigits_def]
    by_cases h : n < 10
    · simp only [if_pos h, List.mem_singleton]
      intro c hc
      subst hc
      exact digitChar_isDigit (n % 10) (Nat.mod_lt n (by omega))
    · simp only [if_neg h, List.mem_append, List.mem_singleton]
      intro c hc
      rcases hc with hc | hc
      · exact ih (n / 10) (Nat.div_lt_self (by omega) (by omega)) c hc
      · subst hc
        exact digitChar_isDigit (n % 10) (Nat.mod_lt n (by omega))

theorem decDigits_ne_nil (n : Nat) : decDigits n ≠ [] := by
  rw [decDigits_def]
  by_cases h : n < 10
  · simp [h]
  · simp [h]

theorem digitsVal_append_singleton (l : List Char) (c : Char) :
    digitsVal (l ++ [c]) = 10 * digitsVal l + (c.toNat - 48) := by
  simp [digitsVal]

theorem digitsVal_decDigits (n : Nat) : digitsVal (decDigits n) = n := by
  induction n using Nat.strong_induction_on with
  | _ n ih =>
    rw [decDigits_def]
    by_cases h : n < 10
    · simp only [if_pos h]
      have : digitsVal [Nat.digitChar (n % 10)] = (Nat.digitChar (n % 10)).toNat - 48 := by
        simp [digitsVal]
      rw [this, digitChar_val (n % 10) (Nat.mod_lt n (by omega))]
      omega
    · simp only [if_neg h]
      rw [digitsVal_append_singleton]
      rw [ih (n / 10) (Nat.div_lt_self (by omega) (by omega))]
      rw [digitChar_val (n % 10) (Nat.mod_lt n (by omega))]
      omega

theorem splitNonDigits_spec (p : List Char) :
    ∀ r : List Char, (∀ c ∈ p, c.isDigit = false) →
      (∀ c, r.head? = some c → c.isDigit = true) →
      splitNonDigits (p ++ r) = (p, r) := by
  induction p with
  | nil =>
    intro r _ hr
    cases r with
    | nil => rfl
    | cons c l =>
      have : c.isDigit = true := hr c rfl
      simp [splitNonDigits, this]
  | cons c p ih =>
    intro r hp hr
    have hc : c.isDigit = false := hp c (List.mem_cons_self c p)
    have := ih r (fun d hd => hp d (List.mem_cons_of_mem c hd)) hr
    simp [splitNonDigits, hc, this]

theorem splitDigits_spec (d : List Char) :
    ∀ s : List Char, (∀ c ∈ d, c.isDigit = true) →
      (∀ c, s.head? = some c → c.isDigit = false) →
      splitDigits (d ++ s) = (d, s) := by
  induction d with
  | nil =>
    intro s _ hs
    cases s with
    | nil => rfl
    | cons c l =>
      have : c.isDigit = false := hs c rfl
      simp [splitDigits, this]
  | cons c d ih =>
    intro s hd hs
    have hc : c.isDigit = true := hd c (List.mem_cons_self c d)
    have := ih s (fun e he => hd e (List.mem_cons_of_mem c he)) hs
    simp [splitDigits, hc, this]

theorem head?_append_ne_nil {α : Type} (a b : List α) (h : a ≠ []) :
    (a ++ b).head? = a.head? := by
  cases a with
  | nil => exact absurd rfl h
  | cons x l => rfl

/-- The fingerprint of `p ++ Nat.repr y ++ s` recovers the three blocks,
whenever `p` has no digit and `s` does not start with one. -/
theorem phi_block (p s : String) (y : Nat)
    (hp : ∀ c ∈ p.data, c.isDigit = false)
    (hs : ∀ c, s.data.head? = some c → c.isDigit = false) :
    phi (p ++ Nat.repr y ++ s) = (p.data, y, s.data) := by
  unfold phi phiData
  have hdata : (p ++ Nat.repr y ++ s).data =
      p.data ++ ((Nat.repr y).data ++ s.data) := by
    simp [String.data_append]
  have hne : (Nat.repr y).data ≠ [] := by
    rw [repr_data_eq_decDigits]
    exact decDigits_ne_nil y
  have hd : ∀ c ∈ (Nat.repr y).data, c.isDigit = true := by
    rw [repr_data_eq_decDigits]
    exact decDigits_all_digits y
  have hr : ∀ c, ((Nat.repr y).data ++ s.data).head? = some c → c.isDigit = true := by
    intro c hc
    rw [head?_append_ne_nil _ _ hne] at hc
    exact hd c (List.mem_of_mem_head? hc)
  have h1 := splitNonDigits_spec p.data ((Nat.repr y).data ++ s.data) hp hr
  have h2 := splitDigits_spec (Nat.repr y).data s.data hd hs
  rw [hdata, h1]
  simp only [h2]
  rw [repr_data_eq_decDigits, digitsVal_decDigits]

/-- Variant with an empty trailing block. -/
theorem phi_block2 (p : String) (y : Nat)
    (hp : ∀ c ∈ p.data, c.isDigit = false) :
    phi (p ++ Nat.repr y) = (p.data, y, []) := by
  have h := phi_block p "" y hp (by intro c hc; simp at hc)
  simpa using h

theorem phi_ar3 (a b : String) (y : Nat)
    (hp : ∀ c ∈ (a ++ b ++ "-").data, c.isDigit = false) :
    phi (a ++ b ++ "-" ++ Nat.repr y) = ((a ++ b ++ "-").data, y, []) :=
  phi_block2 (a ++ b ++ "-") y hp

theorem hs_head (s2 : String) (m : Nat) (c0 : Char)
    (h0 : s2.data.head? = some c0) (hd : c0.isDigit = false) :
    ∀ c, ((s2 ++ Nat.repr m)).data.head? = some c → c.isDigit = false := by
  intro c hc
  rw [String.data_append] at hc
  have hne : s2.data ≠ [] := by
    intro h
    rw [h] at h0
    simp at h0
  rw [head?_append_ne_nil _ _ hne, h0] at hc
  cases hc
  exact hd

theorem phi_mid (a b s2 : String) (y m : Nat)
    (hp : ∀ c ∈ (a ++ b ++ "-").data, c.isDigit = false)
    (c0 : Char) (h0 : s2.data.head? = some c0) (hd : c0.isDigit = false) :
    phi (a ++ b ++ "-" ++ Nat.repr y ++ s2 ++ Nat.repr m) =
      ((a ++ b ++ "-").data, y, (s2 ++ Nat.repr m).data) := by
  have h : a ++ b ++ "-" ++ Nat.repr y ++ s2 ++ Nat.repr m =
      (a ++ b ++ "-") ++ Nat.repr y ++ (s2 ++ Nat.repr m) := by
    simp [String.append_assoc]
  rw [h]
  exact phi_block _ _ y hp (hs_head s2 m c0 h0 hd)

theorem phi_fedq (a s2 : String) (y m : Nat)
    (hp : ∀ c ∈ a.data, c.isDigit = false)
    (c0 : Char) (h0 : s2.data.head? = some c0) (hd : c0.isDigit = false) :
    phi (a ++ Nat.repr y ++ s2 ++ Nat.repr m) = (a.data, y, (s2 ++ Nat.repr m).data) := by
  have h : a ++ Nat.repr y ++ s2 ++ Nat.repr m = a ++ Nat.repr y ++ (s2 ++ Nat.repr m) := by
    simp [String.append_assoc]
  rw [h]
  exact phi_block _ _ y hp (hs_head s2 m c0 h0 hd)

theorem tripleList_nodup (T : List (List Char × List Char)) (hT : T.Nodup)
    (y : Nat) : (tripleList T y).Nodup := by
  apply hT.map
  intro a b h
  simp only [Prod.mk.injEq] at h
  exact Prod.ext h.1 h.2.2

theorem tripleList_year (T : List (List Char × List Char)) (y : Nat)
    (x : List Char × Nat × List Char) (hx : x ∈ tripleList T y) : x.2.1 = y := by
  rcases List.mem_map.mp hx with ⟨t, _, rfl⟩
  rfl

theorem tripleList_disjoint (T1 T2 : List (List Char × List Char))
    (y1 y2 : Nat) (h : y1 ≠ y2) :
    (tripleList T1 y1).Disjoint (tripleList T2 y2) := by
  intro x h1 h2
  exact h ((tripleList_year T1 y1 x h1).symm.trans (tripleList_year T2 y2 x h2))

theorem threeBlocks_nodup (T : List (List Char × List Char)) (hT : T.Nodup)
    (y : Nat) :
    (tripleList T y ++ (tripleList T (y+1) ++ tripleList T (y+2))).Nodup := by
  rw [List.nodup_append, List.nodup_append]
  refine ⟨tripleList_nodup T hT y,
    ⟨tripleList_nodup T hT (y+1), tripleList_nodup T hT (y+2),
      tripleList_disjoint T T (y+1) (y+2) (by omega)⟩, ?_⟩
  intro x h1 h2
  rcases List.mem_append.mp h2 with h2 | h2
  · exact tripleList_disjoint T T y (y+1) (by omega) h1 h2
  · exact tripleList_disjoint T T y (y+2) (by omega) h1 h2

/-! ### Per-jurisdiction id templates and uniqueness -/

theorem phiAR_FL (y : Nat) :
    phi ("AR-FL-" ++ Nat.repr y) = (("AR-FL-" : String).data, y, []) :=
  phi_block2 "AR-FL-" y (by decide)

theorem phiTAXM_Sales (y m : Nat) :
    phi ("TAX-Sales Tax-" ++ Nat.repr y ++ "-" ++ Nat.repr m) =
      (("TAX-Sales Tax-" : String).data, y, (("-" : String) ++ Nat.repr m).data) :=
  phi_fedq "TAX-Sales Tax-" "-" y m (by decide) '-' (by decide) (by decide)

theorem phiTAXQ_Re (y m : Nat) :
    phi ("TAX-Reemployment Tax-" ++ Nat.repr y ++ "-Q" ++ Nat.repr m) =
      (("TAX-Reemployment Tax-" : String).data, y, (("-Q" : String) ++ Nat.repr m).data) :=
  phi_fedq "TAX-Reemployment Tax-" "-Q" y m (by decide) '-' (by decide) (by decide)

theorem phiLIC_FL (y : Nat) :
    phi ("LIC-FL-" ++ Nat.repr y) = (("LIC-FL-" : String).data, y, []) :=
  phi_block2 "LIC-FL-" y (by decide)

theorem phiRA_FL (y : Nat) :
    phi ("RA-FL-" ++ Nat.repr y) = (("RA-FL-" : String).data, y, []) :=
  phi_block2 "RA-FL-" y (by decide)

theorem phiFEDI (y : Nat) :
    phi ("FED-INCOME-" ++ Nat.repr y) = (("FED-INCOME-" : String).data, y, []) :=
  phi_block2 "FED-INCOME-" y (by decide)

theorem phiFEDQ (y m : Nat) :
    phi ("FED-EST-" ++ Nat.repr y ++ "-Q" ++ Nat.repr m) =
      (("FED-EST-" : String).data, y, (("-Q" : String) ++ Nat.repr m).data) :=
  phi_fedq "FED-EST-" "-Q" y m (by decide) '-' (by decide) (by decide)

theorem hrange12 : List.range 12 = [0, 1, 2, 3, 4, 5, 6, 7, 8, 9, 10, 11] := rfl

theorem hrange4 : List.range 4 = [0, 1, 2, 3] := rfl

theorem hrange3 : List.range 3 = [0, 1, 2] := rfl

theorem flIds_phi (fd : GDate) (y : Nat) :
    ((generatedEvents "FL" flReqs fd y).map (fun e => e.id)).map phi =
      tripleList flTemplates y ++
        (tripleList flTemplates (y + 1) ++ tripleList flTemplates (y + 2)) := by
  simp [generatedEvents, yearEvents, flReqs, createAnnualReportEvent, createTaxEvents,
    createBusinessLicenseEvent, createRegisteredAgentEvent, createFederalTaxEvents,
    flTemplates, tripleList, hrange12, hrange4, hrange3,
    phiAR_FL, phiTAXM_Sales, phiTAXQ_Re, phiLIC_FL, phiRA_FL, phiFEDI, phiFEDQ]

theorem flIdsNodup (fd : GDate) (y : Nat) :
    ((generatedEvents "FL" flReqs fd y).map (fun e => e.id)).Nodup := by
  apply List.Nodup.of_map phi
  rw [flIds_phi fd y]
  exact threeBlocks_nodup flTemplates (by decide) y

theorem phiAR_WY (y : Nat) :
    phi ("AR-WY-" ++ Nat.repr y) = (("AR-WY-" : String).data, y, []) :=
  phi_block2 "AR-WY-" y (by decide)

theorem phiRA_WY (y : Nat) :
    phi ("RA-WY-" ++ Nat.repr y) = (("RA-WY-" : String).data, y, []) :=
  phi_block2 "RA-WY-" y (by decide)

theorem phiAR_IL (y : Nat) :
    phi ("AR-IL-" ++ Nat.repr y) = (("AR-IL-" : String).data, y, []) :=
  phi_block2 "AR-IL-" y (by decide)

theorem phiTAXA_Income (y : Nat) :
    phi ("TAX-Income Tax-" ++ Nat.repr y) = (("TAX-Income Tax-" : String).data, y, []) :=
  phi_block2 "TAX-Income Tax-" y (by decide)

theorem phiLIC_IL (y : Nat) :
    phi ("LIC-IL-" ++ Nat.repr y) = (("LIC-IL-" : String).data, y, []) :=
  phi_block2 "LIC-IL-" y (by decide)

theorem phiRA_IL (y : Nat) :
    phi ("RA-IL-" ++ Nat.repr y) = (("RA-IL-" : String).data, y, []) :=
  phi_block2 "RA-IL-" y (by decide)

theorem wyIds_phi (fd : GDate) (y : Nat) :
    ((generatedEvents "WY" wyReqs fd y).map (fun e => e.id)).map phi =
      tripleList wyTemplates y ++
        (tripleList wyTemplates (y + 1) ++ tripleList wyTemplates (y + 2)) := by
  simp [generatedEvents, yearEvents, wyReqs, createAnnualReportEvent, createTaxEvents,
    createBusinessLicenseEvent, createRegisteredAgentEvent, createFederalTaxEvents,
    wyTemplates, tripleList, hrange4, hrange3,
    phiAR_WY, phiRA_WY, phiFEDI, phiFEDQ]

theorem wyIdsNodup (fd : GDate) (y : Nat) :
    ((generatedEvents "WY" wyReqs fd y).map (fun e => e.id)).Nodup := by
  apply List.Nodup.of_map phi
  rw [wyIds_phi fd y]
  exact threeBlocks_nodup wyTemplates (by decide) y

theorem ilIds_phi (fd : GDate) (y : Nat) :
    ((generatedEvents "IL" ilReqs fd y).map (fun e => e.id)).map phi =
      tripleList ilTemplates y ++
        (tripleList ilTemplates (y + 1) ++ tripleList ilTemplates (y + 2)) := by
  simp [generatedEvents, yearEvents, ilReqs, createAnnualReportEvent, createTaxEvents,
    createBusinessLicenseEvent, createRegisteredAgentEvent, createFederalTaxEvents,
    ilTemplates, tripleList, hrange12, hrange4, hrange3,
    phiAR_IL, phiTAXA_Income, phiTAXM_Sales, phiLIC_IL, phiRA_IL, phiFEDI, phiFEDQ]

theorem ilIdsNodup (fd : GDate) (y : Nat) :
    ((generatedEvents "IL" ilReqs fd y).map (fun e => e.id)).Nodup := by
  apply List.Nodup.of_map phi
  rw [ilIds_phi fd y]
  exact threeBlocks_nodup ilTemplates (by decide) y

theorem insertByDue_perm (e : GEvent) (l : List GEvent) :
    (insertByDue e l).Perm (e :: l) := by
  induction l with
  | nil => exact List.Perm.refl _
  | cons x xs ih =>
    by_cases h : dateLT x.dueDate e.dueDate
    · simp only [insertByDue, h, if_true]
      exact (ih.cons x).trans (List.Perm.swap e x xs)
    · simp only [insertByDue, h, if_false]
      exact List.Perm.refl _

theorem sortByDue_perm (l : List GEvent) : (sortByDue l).Perm l := by
  induction l with
  | nil => exact List.Perm.refl _
  | cons x xs ih =>
    exact (insertByDue_perm x (sortByDue xs)).trans (ih.cons x)

/-- Unfolding lemma for `createComplianceCalendarEvents` on a supported
state. -/
theorem createCCEvents_eq (state : String) (reqs : StateReqs)
    (h : complianceRequirements state = some reqs) (fd : GDate) (y : Nat) :
    createComplianceCalendarEvents state fd y =
      some (sortByDue (generatedEvents state reqs fd y)) := by
  unfold createComplianceCalendarEvents
  rw [h]
  rfl

/-- C5 as amended: calendar generation is a pure function of
`(state, formationDate, generation year)` — regenerating with identical
inputs yields the identical event list — and for each supported
jurisdiction the generated calendar never contains two events with the same
id, **for every generation year**: the id is a deterministic function of the
generating rule (event kind plus tax type), the loop year, and the period —
a strictly finer key than the claimed `(type, year, period)`. -/
theorem C5_theorem (state : String)
    (h : state = "FL" ∨ state = "WY" ∨ state = "IL")
    (fd : GDate) (y : Nat) :
    createComplianceCalendarEvents state fd y = createComplianceCalendarEvents state fd y ∧
    (((createComplianceCalendarEvents state fd y).getD []).map (fun e => e.id)).Nodup := by
  refine ⟨rfl, ?_⟩
  rcases h with h | h | h <;> subst h
  · rw [createCCEvents_eq "FL" flReqs rfl fd y, Option.getD_some]
    have hp : (sortByDue (generatedEvents "FL" flReqs fd y)).Perm
        (generatedEvents "FL" flReqs fd y) := sortByDue_perm _
    have hm := List.Perm.map (fun e : GEvent => e.id) hp
    exact hm.symm.nodup (flIdsNodup fd y)
  · rw [createCCEvents_eq "WY" wyReqs rfl fd y, Option.getD_some]
    have hp : (sortByDue (generatedEvents "WY" wyReqs fd y)).Perm
        (generatedEvents "WY" wyReqs fd y) := sortByDue_perm _
    have hm := List.Perm.map (fun e : GEvent => e.id) hp
    exact hm.symm.nodup (wyIdsNodup fd y)
  · rw [createCCEvents_eq "IL" ilReqs rfl fd y, Option.getD_some]
    have hp : (sortByDue (generatedEvents "IL" ilReqs fd y)).Perm
        (generatedEvents "IL" ilReqs fd y) := sortByDue_perm _
    have hm := List.Perm.map (fun e : GEvent => e.id) hp
    exact hm.symm.nodup (ilIdsNodup fd y)

/-- Witness for `C5_theorem`: the FL calendar generated in 2025. -/
theorem C5_witness :
    createComplianceCalendarEvents "FL" ⟨2024, 2, 10⟩ 2025 =
      createComplianceCalendarEvents "FL" ⟨2024, 2, 10⟩ 2025 ∧
    (((createComplianceCalendarEvents "FL" ⟨2024, 2, 10⟩ 2025).getD []).map
      (fun e => e.id)).Nodup :=
  C5_theorem "FL" (Or.inl rfl) ⟨2024, 2, 10⟩ 2025
